import Mathlib

/-!
Shallow embedding of `meraki_deployment.py`.

The script is a linear orchestration of remote calls against the Meraki
dashboard API.  We model the remote organization as an explicit state
(`OrgState`), every remote call as a constructor of `ApiCall` recorded in a
trace, and each Python function as a pure Lean function from state to
result, new state and trace.  Python exceptions (`meraki.APIError`) on the
cosmetic device-update calls are modelled by fault-injection lists in the
state (`getDeviceFails`, `updateNameFails`, `updateAddressFails`); the
eventual-consistency gap between a successful claim call and the device
being visible in the network listing is modelled by `visibleSerials`.
Python truthiness on strings (`if network_name:`, `if not template_id:`,
`if switch_serial and appliance_serial:`) is modelled by `truthyOpt` /
emptiness checks, exactly where the source tests truthiness.
-/

set_option linter.unusedVariables false

namespace Meraki

/-- A network as returned by the dashboard: id, display name, tags. -/

structure Network where
  id : String
  name : String
  tags : List String
deriving Repr, DecidableEq

/-- A device in the organization inventory: serial and model string. -/

structure Device where
  serial : String
  model : String
deriving Repr, DecidableEq

/-- A configuration template: id and name. -/

structure ConfigTemplate where
  id : String
  name : String
deriving Repr, DecidableEq

/-- The remote organization state, plus fault-injection oracles for the
calls the source wraps in its inner `try`/`except`. -/

structure OrgState where
  networks : List Network
  orgDevices : List Device
  netMembers : List (String × String)
  templates : List ConfigTemplate
  boundTemplates : List (String × String)
  deviceNames : List (String × String)
  deviceAddresses : List (String × String)
  freshId : Nat
  visibleSerials : List String
  getDeviceFails : List String
  updateNameFails : List String
  updateAddressFails : List String
deriving Repr, DecidableEq

/-- One remote API call, as recorded in the run's trace.  The Python
`updateDevice` kwargs-call is split into its two call sites (name-setting
and address-setting). -/

inductive ApiCall where
  | getOrganizationNetworks
  | createOrganizationNetwork (name : String) (tags : List String)
  | getOrganizationDevices
  | getOrganizationConfigTemplates
  | claimNetworkDevices (networkId : String) (serials : List String)
  | getDevice (serial : String)
  | updateDeviceName (serial : String) (name : String)
  | updateDeviceAddress (serial : String) (address : String) (moveMapMarker : Bool)
  | getNetworkDevices (networkId : String)
  | bindNetwork (networkId : String) (configTemplateId : String)
deriving Repr, DecidableEq

/-- Result of one embedded component: return value, post state, call trace. -/

structure CallResult (α : Type) where
  ret : α
  state : OrgState
  trace : List ApiCall
deriving Repr, DecidableEq

/-- Python truthiness of an optional string: `None` and `""` are falsy. -/

def truthyOpt : Option String → Bool
  | none => false
  | some s => !(s == "")

/-- `needle.isPrefixOf` some suffix of the haystack: Python `needle in hay`. -/

def substrIn (needle : List Char) : List Char → Bool
  | [] => needle.isEmpty
  | c :: rest => needle.isPrefixOf (c :: rest) || substrIn needle rest

/-- Python substring test `needle in hay` on strings. -/

def strContains (hay needle : String) : Bool :=
  substrIn needle.data hay.data

/-- Mutating calls: create, claim, the two update forms, bind. -/

def ApiCall.isMutating : ApiCall → Bool
  | .createOrganizationNetwork _ _ => true
  | .claimNetworkDevices _ _ => true
  | .updateDeviceName _ _ => true
  | .updateDeviceAddress _ _ _ => true
  | .bindNetwork _ _ => true
  | _ => false

/-- Mutating calls other than network creation: claim, update, bind. -/

def ApiCall.isDeviceMutation : ApiCall → Bool
  | .claimNetworkDevices _ _ => true
  | .updateDeviceName _ _ => true
  | .updateDeviceAddress _ _ _ => true
  | .bindNetwork _ _ => true
  | _ => false

/-- Is this call a claim call? -/

def ApiCall.isClaim : ApiCall → Bool
  | .claimNetworkDevices _ _ => true
  | _ => false

/-- Is this call the address-setting form of updateDevice? -/

def ApiCall.isAddressUpdate : ApiCall → Bool
  | .updateDeviceAddress _ _ _ => true
  | _ => false

/-- `get_or_create_network(network_name, tags, ignore_existing)`:
fetches an existing network or creates a new one.  The created network's
dashboard-assigned id is modelled as `"N_" ++ freshId`. -/

def get_or_create_network (s : OrgState) (network_name : Option String)
    (tags : Option (List String)) (ignore_existing : Bool) :
    CallResult (Option String) :=
  if truthyOpt network_name then
    let nameStr := network_name.getD ""
    match s.networks.find? (fun n => n.name == nameStr) with
    | some n =>
      if !ignore_existing then
        { ret := none, state := s, trace := [ApiCall.getOrganizationNetworks] }
      else
        { ret := some n.id, state := s, trace := [ApiCall.getOrganizationNetworks] }
    | none =>
      let nid := "N_" ++ toString s.freshId
      let nw : Network := { id := nid, name := nameStr, tags := tags.getD [] }
      { ret := some nid,
        state := { s with networks := s.networks ++ [nw], freshId := s.freshId + 1 },
        trace := [ApiCall.getOrganizationNetworks,
                  ApiCall.createOrganizationNetwork nameStr (tags.getD [])] }
  else
    match s.networks with
    | n :: _ =>
      { ret := some n.id, state := s, trace := [ApiCall.getOrganizationNetworks] }
    | [] =>
      let nid := "N_" ++ toString s.freshId
      let nw : Network := { id := nid, name := "Automated Network", tags := tags.getD [] }
      { ret := some nid,
        state := { s with networks := s.networks ++ [nw], freshId := s.freshId + 1 },
        trace := [ApiCall.getOrganizationNetworks,
                  ApiCall.createOrganizationNetwork "Automated Network" (tags.getD [])] }

/-- The device-scanning loop of `get_available_devices`: two accumulators,
`if "MS" in model and not switch_serial: ... elif "MX85" in model and not
mx85_serial: ...`. -/

def locStep (acc : Option String × Option String) (d : Device) :
    Option String × Option String :=
  if strContains d.model "MS" && !(truthyOpt acc.1) then (some d.serial, acc.2)
  else if strContains d.model "MX85" && !(truthyOpt acc.2) then (acc.1, some d.serial)
  else acc

def locateDevices (devices : List Device) : Option String × Option String :=
  devices.foldl locStep (none, none)

/-- `get_available_devices()`: fetches the inventory and scans it; a `none`
return models the function's `sys.exit(1)` when either class is missing. -/

def get_available_devices (s : OrgState) :
    Option (String × String) × List ApiCall :=
  let p := locateDevices s.orgDevices
  if truthyOpt p.1 && truthyOpt p.2 then
    (some (p.1.getD "", p.2.getD ""), [ApiCall.getOrganizationDevices])
  else
    (none, [ApiCall.getOrganizationDevices])

/-- The dashboard's answer to `getNetworkDevices(network_id)`: serials
claimed into the network that the dashboard actually shows. -/

def networkSerials (s : OrgState) (networkId : String) : List String :=
  (s.netMembers.filter
    (fun p => p.1 == networkId && s.visibleSerials.contains p.2)).map (fun p => p.2)

/-- The inner `try` of `deploy_meraki_device`: getDevice, rename, and (if an
address was given) address update; any APIError aborts the remaining steps
and is caught with a warning. -/

def deployCosmetic (s : OrgState) (serial_number : String) (address : Option String) :
    OrgState × List ApiCall :=
  match s.orgDevices.find? (fun d => d.serial == serial_number) with
  | none => (s, [ApiCall.getDevice serial_number])
  | some d =>
    if s.getDeviceFails.contains serial_number then
      (s, [ApiCall.getDevice serial_number])
    else
      let device_name := d.model ++ "_" ++ serial_number
      let trN := [ApiCall.getDevice serial_number,
                  ApiCall.updateDeviceName serial_number device_name]
      if s.updateNameFails.contains serial_number then
        (s, trN)
      else
        let sN := { s with deviceNames := s.deviceNames ++ [(serial_number, device_name)] }
        if truthyOpt address then
          let a := address.getD ""
          let trA := trN ++ [ApiCall.updateDeviceAddress serial_number a true]
          if s.updateAddressFails.contains serial_number then
            (sN, trA)
          else
            ({ sN with deviceAddresses := sN.deviceAddresses ++ [(serial_number, a)] }, trA)
        else
          (sN, trN)

/-- `deploy_meraki_device(serial, network_id, device_type, address)`:
claims the device, attempts the cosmetic updates, then re-fetches the
network device list and verifies the serial is present; `Except.error 1`
models `sys.exit(1)` on verification failure. -/

def deploy_meraki_device (s : OrgState) (serial_number network_id device_type : String)
    (address : Option String) : CallResult (Except Nat Unit) :=
  let s1 := { s with netMembers := s.netMembers ++ [(network_id, serial_number)] }
  let c := deployCosmetic s1 serial_number address
  let listed := networkSerials c.1 network_id
  if listed.contains serial_number then
    { ret := Except.ok (),
      state := c.1,
      trace := ApiCall.claimNetworkDevices network_id [serial_number] ::
               (c.2 ++ [ApiCall.getNetworkDevices network_id]) }
  else
    { ret := Except.error 1,
      state := c.1,
      trace := ApiCall.claimNetworkDevices network_id [serial_number] ::
               (c.2 ++ [ApiCall.getNetworkDevices network_id]) }

/-- `bind_network_to_template(network_id, template_name)`: exact-name lookup
among the organization's templates, bind on success, `false` on a missing
template (the Python `if not template_id:` truthiness also treats an empty
template id as not found). -/

def bind_network_to_template (s : OrgState) (network_id template_name : String) :
    CallResult Bool :=
  match s.templates.find? (fun t => t.name == template_name) with
  | none =>
    { ret := false, state := s, trace := [ApiCall.getOrganizationConfigTemplates] }
  | some t =>
    if t.id == "" then
      { ret := false, state := s, trace := [ApiCall.getOrganizationConfigTemplates] }
    else
      { ret := true,
        state := { s with boundTemplates := s.boundTemplates ++ [(network_id, t.id)] },
        trace := [ApiCall.getOrganizationConfigTemplates,
                  ApiCall.bindNetwork network_id t.id] }

/-- The CLI arguments of `main` (argparse gives `None` for absent options). -/

structure Args where
  dry_run : Bool
  network_name : Option String
  tags : Option String
  template : Option String
  address : Option String
  ignore_existing : Bool
  switch_serial : Option String
  appliance_serial : Option String
deriving Repr, DecidableEq

/-- `args.tags.split(',') if args.tags else None`. -/

def parseTags : Option String → Option (List String)
  | none => none
  | some t => if t == "" then none else some (t.splitOn ",")

/-- The serial-selection step of `main`: explicit serials when both are
truthy, otherwise `get_available_devices()`. -/

def mainSerials (args : Args) (s : OrgState) :
    Option (String × String) × List ApiCall :=
  if truthyOpt args.switch_serial && truthyOpt args.appliance_serial then
    (some (args.switch_serial.getD "", args.appliance_serial.getD ""), [])
  else
    get_available_devices s

/-- The template-binding step of `main`: `if args.template and not
args.dry_run: bind...` (a binding failure only logs a warning). -/

def templatePhase (args : Args) (network_id : String) (s : OrgState) :
    OrgState × List ApiCall :=
  if truthyOpt args.template && !args.dry_run then
    ((bind_network_to_template s network_id (args.template.getD "")).state,
     (bind_network_to_template s network_id (args.template.getD "")).trace)
  else
    (s, [])

/-- The deployment step of `main`: in dry-run only log, otherwise deploy
the switch then the appliance; a failed deployment exits the process. -/

def deployPhase (args : Args) (network_id sw mx : String) (s : OrgState) :
    CallResult Nat :=
  if args.dry_run then
    { ret := 0, state := s, trace := [] }
  else
    let d1 := deploy_meraki_device s sw network_id "Switch" args.address
    match d1.ret with
    | Except.error c => { ret := c, state := d1.state, trace := d1.trace }
    | Except.ok _ =>
      let d2 := deploy_meraki_device d1.state mx network_id
                  "MX85 Security Appliance" args.address
      match d2.ret with
      | Except.error c =>
        { ret := c, state := d2.state, trace := d1.trace ++ d2.trace }
      | Except.ok _ =>
        { ret := 0, state := d2.state, trace := d1.trace ++ d2.trace }

/-- `main()`: resolve network, optionally bind template (skipped in
dry-run), select serials, then either deploy both devices or only log.
`ret` is the process exit code. -/

def main (args : Args) (s : OrgState) : CallResult Nat :=
  let r1 := get_or_create_network s args.network_name (parseTags args.tags)
              args.ignore_existing
  if truthyOpt r1.ret then
    let tp := templatePhase args (r1.ret.getD "") r1.state
    let r3 := mainSerials args tp.1
    match r3.1 with
    | none => { ret := 1, state := tp.1, trace := r1.trace ++ tp.2 ++ r3.2 }
    | some (switch_serial, mx85_serial) =>
      let dp := deployPhase args (r1.ret.getD "") switch_serial mx85_serial tp.1
      { ret := dp.ret, state := dp.state,
        trace := r1.trace ++ tp.2 ++ r3.2 ++ dp.trace }
  else
    { ret := 1, state := r1.state, trace := r1.trace }

/-! ### Frame and trace lemmas about the components -/

def emptyOrg : OrgState :=
  { networks := [], orgDevices := [], netMembers := [], templates := [],
    boundTemplates := [], deviceNames := [], deviceAddresses := [], freshId := 0,
    visibleSerials := [], getDeviceFails := [], updateNameFails := [],
    updateAddressFails := [] }

def baseArgs : Args :=
  { dry_run := false, network_name := none, tags := none, template := none,
    address := none, ignore_existing := false, switch_serial := none,
    appliance_serial := none }

def c3state : OrgState :=
  { emptyOrg with networks := [{ id := "L_1", name := "Branch", tags := [] }] }

def c3args : Args := { baseArgs with network_name := some "Branch" }

def c10net : Network := { id := "L_1", name := "Branch", tags := ["old"] }

def c10state : OrgState := { emptyOrg with networks := [c10net] }

def locateDevicesClaimed (devices : List Device) : Option String × Option String :=
  ((devices.find? (fun d => strContains d.model "MS")).map (fun d => d.serial),
   (devices.find? (fun d => strContains d.model "MX85")).map (fun d => d.serial))

def c5inventory : List Device :=
  [{ serial := "A", model := "MS-MX85" }, { serial := "B", model := "MX85W" }]

def ApiCall.isResolveCall : ApiCall → Bool
  | .getOrganizationNetworks => true
  | .createOrganizationNetwork _ _ => true
  | _ => false

def ApiCall.isTemplateCall : ApiCall → Bool
  | .getOrganizationConfigTemplates => true
  | .bindNetwork _ _ => true
  | _ => false

def ApiCall.isDeployCall : ApiCall → Bool
  | .claimNetworkDevices _ _ => true
  | .getDevice _ => true
  | .updateDeviceName _ _ => true
  | .updateDeviceAddress _ _ _ => true
  | .getNetworkDevices _ => true
  | _ => false

def c1args : Args :=
  { baseArgs with
    dry_run := true,
    network_name := some "Branch-12",
    switch_serial := some "ABC-1",
    appliance_serial := some "XYZ-2" }

def c9args : Args := { baseArgs with switch_serial := some "ABC-1" }

def c6args : Args :=
  { baseArgs with
    switch_serial := some "ABC-1",
    appliance_serial := some "XYZ-2" }

def c6state : OrgState :=
  { emptyOrg with
    networks := [{ id := "L_1", name := "Branch", tags := [] }],
    visibleSerials := ["ABC-1", "XYZ-2"] }

def c2args : Args :=
  { baseArgs with
    switch_serial := some "SW1",
    appliance_serial := some "MX1" }

def c2state : OrgState :=
  { emptyOrg with networks := [{ id := "L_1", name := "Branch", tags := [] }] }

def c7args : Args :=
  { baseArgs with
    template := some "HQ-Template",
    switch_serial := some "SW1",
    appliance_serial := some "MX1" }

def c7state : OrgState :=
  { emptyOrg with
    networks := [{ id := "L_1", name := "Branch", tags := [] }],
    visibleSerials := ["SW1", "MX1"] }

def c8state : OrgState :=
  { emptyOrg with
    orgDevices := [{ serial := "S1", model := "MS220" }],
    netMembers := [],
    visibleSerials := ["S1"],
    updateNameFails := ["S1"] }

def c8okstate : OrgState :=
  { emptyOrg with
    orgDevices := [{ serial := "S1", model := "MS220" }],
    visibleSerials := ["S1"] }

theorem gocn_state_frame (s : OrgState) (nn : Option String)
    (tg : Option (List String)) (ig : Bool) :
    (get_or_create_network s nn tg ig).state.orgDevices = s.orgDevices ∧
    (get_or_create_network s nn tg ig).state.visibleSerials = s.visibleSerials ∧
    (get_or_create_network s nn tg ig).state.netMembers = s.netMembers ∧
    (get_or_create_network s nn tg ig).state.templates = s.templates := by
  simp only [get_or_create_network]
  repeat' split
  all_goals simp

theorem gocn_trace_shape (s : OrgState) (nn : Option String)
    (tg : Option (List String)) (ig : Bool) :
    (get_or_create_network s nn tg ig).trace = [ApiCall.getOrganizationNetworks] ∨
    ∃ nm tgl, (get_or_create_network s nn tg ig).trace =
      [ApiCall.getOrganizationNetworks, ApiCall.createOrganizationNetwork nm tgl] := by
  simp only [get_or_create_network]
  repeat' split
  all_goals simp

theorem bind_state_frame (s : OrgState) (nid tn : String) :
    (bind_network_to_template s nid tn).state.orgDevices = s.orgDevices ∧
    (bind_network_to_template s nid tn).state.visibleSerials = s.visibleSerials ∧
    (bind_network_to_template s nid tn).state.netMembers = s.netMembers ∧
    (bind_network_to_template s nid tn).state.networks = s.networks := by
  simp only [bind_network_to_template]
  repeat' split
  all_goals simp

theorem bind_trace_shape (s : OrgState) (nid tn : String) :
    (bind_network_to_template s nid tn).trace = [ApiCall.getOrganizationConfigTemplates] ∨
    ∃ tid, (bind_network_to_template s nid tn).trace =
      [ApiCall.getOrganizationConfigTemplates, ApiCall.bindNetwork nid tid] := by
  simp only [bind_network_to_template]
  repeat' split
  all_goals simp

theorem cosmetic_state_frame (s : OrgState) (ser : String) (addr : Option String) :
    (deployCosmetic s ser addr).1.orgDevices = s.orgDevices ∧
    (deployCosmetic s ser addr).1.visibleSerials = s.visibleSerials ∧
    (deployCosmetic s ser addr).1.netMembers = s.netMembers ∧
    (deployCosmetic s ser addr).1.networks = s.networks := by
  simp only [deployCosmetic]
  repeat' split
  all_goals simp

theorem cosmetic_trace_shape (s : OrgState) (ser : String) (addr : Option String) :
    (deployCosmetic s ser addr).2 = [ApiCall.getDevice ser] ∨
    (∃ nm, (deployCosmetic s ser addr).2 =
      [ApiCall.getDevice ser, ApiCall.updateDeviceName ser nm]) ∨
    (∃ nm a, (deployCosmetic s ser addr).2 =
      [ApiCall.getDevice ser, ApiCall.updateDeviceName ser nm,
       ApiCall.updateDeviceAddress ser a true]) := by
  simp only [deployCosmetic]
  repeat' split
  all_goals simp

theorem serials_filter_contains (M : List (String × String)) (V : List String)
    (nid ser : String) :
    (((M ++ [(nid, ser)]).filter (fun p => p.1 == nid && V.contains p.2)).map
      (fun p => p.2)).contains ser = V.contains ser := by
  cases hV : V.contains ser with
  | true =>
    have hserV : ser ∈ V := by simpa [List.contains] using hV
    simp [List.contains, hserV]
  | false =>
    have hserV : ser ∉ V := by simpa [List.contains] using hV
    simp [List.contains, hserV]

theorem deploy_state (s : OrgState) (ser nid dt : String) (addr : Option String) :
    (deploy_meraki_device s ser nid dt addr).state.netMembers =
      s.netMembers ++ [(nid, ser)] ∧
    (deploy_meraki_device s ser nid dt addr).state.visibleSerials = s.visibleSerials ∧
    (deploy_meraki_device s ser nid dt addr).state.orgDevices = s.orgDevices := by
  simp only [deploy_meraki_device]
  have hc := cosmetic_state_frame
    { s with netMembers := s.netMembers ++ [(nid, ser)] } ser addr
  split
  all_goals simp_all [hc.1, hc.2.1, hc.2.2.1]

theorem deploy_ret (s : OrgState) (ser nid dt : String) (addr : Option String) :
    (deploy_meraki_device s ser nid dt addr).ret =
      if s.visibleSerials.contains ser then Except.ok () else Except.error 1 := by
  simp only [deploy_meraki_device]
  have hc := cosmetic_state_frame
    { s with netMembers := s.netMembers ++ [(nid, ser)] } ser addr
  have hkey : (networkSerials
      (deployCosmetic { s with netMembers := s.netMembers ++ [(nid, ser)] } ser addr).1
      nid).contains ser = s.visibleSerials.contains ser := by
    unfold networkSerials
    rw [hc.2.2.1, hc.2.1]
    exact serials_filter_contains s.netMembers s.visibleSerials nid ser
  split
  · simp_all
  · simp_all

theorem deploy_trace_shape (s : OrgState) (ser nid dt : String) (addr : Option String) :
    (deploy_meraki_device s ser nid dt addr).trace =
      ApiCall.claimNetworkDevices nid [ser] ::
      ((deployCosmetic { s with netMembers := s.netMembers ++ [(nid, ser)] } ser addr).2 ++
       [ApiCall.getNetworkDevices nid]) := by
  simp only [deploy_meraki_device]
  split
  all_goals simp

theorem deploy_claims (s : OrgState) (ser nid dt : String) (addr : Option String) :
    ∀ nid' ls, ApiCall.claimNetworkDevices nid' ls ∈
        (deploy_meraki_device s ser nid dt addr).trace →
      nid' = nid ∧ ls = [ser] := by
  intro nid' ls hmem
  rw [deploy_trace_shape] at hmem
  rcases List.mem_cons.mp hmem with h | h
  · cases h
    exact ⟨rfl, rfl⟩
  · exfalso
    rcases List.mem_append.mp h with h | h
    · rcases cosmetic_trace_shape
        { s with netMembers := s.netMembers ++ [(nid, ser)] } ser addr with
        hs | ⟨nm, hs⟩ | ⟨nm, a, hs⟩ <;> rw [hs] at h <;> simp at h
    · simp at h

theorem mainSerials_orgDevices (args : Args) (s s' : OrgState)
    (h : s'.orgDevices = s.orgDevices) :
    mainSerials args s' = mainSerials args s := by
  unfold mainSerials get_available_devices
  rw [h]

theorem templatePhase_frame (args : Args) (nid : String) (s : OrgState) :
    (templatePhase args nid s).1.orgDevices = s.orgDevices ∧
    (templatePhase args nid s).1.visibleSerials = s.visibleSerials ∧
    (templatePhase args nid s).1.netMembers = s.netMembers := by
  unfold templatePhase
  split
  · have hb := bind_state_frame s nid (args.template.getD "")
    exact ⟨hb.1, hb.2.1, hb.2.2.1⟩
  · exact ⟨rfl, rfl, rfl⟩

theorem templatePhase_trace_shape (args : Args) (nid : String) (s : OrgState) :
    (templatePhase args nid s).2 = [] ∨
    (templatePhase args nid s).2 = [ApiCall.getOrganizationConfigTemplates] ∨
    ∃ tid, (templatePhase args nid s).2 =
      [ApiCall.getOrganizationConfigTemplates, ApiCall.bindNetwork nid tid] := by
  unfold templatePhase
  split
  · rcases bind_trace_shape s nid (args.template.getD "") with h | ⟨tid, h⟩
    · exact Or.inr (Or.inl h)
    · exact Or.inr (Or.inr ⟨tid, h⟩)
  · exact Or.inl rfl

theorem templatePhase_dry (args : Args) (nid : String) (s : OrgState)
    (h : args.dry_run = true) : templatePhase args nid s = (s, []) := by
  unfold templatePhase
  simp [h]

theorem deployPhase_dry (args : Args) (nid sw mx : String) (s : OrgState)
    (h : args.dry_run = true) :
    deployPhase args nid sw mx s = { ret := 0, state := s, trace := [] } := by
  unfold deployPhase
  simp [h]

theorem deployPhase_ret (args : Args) (nid sw mx : String) (s : OrgState)
    (hdry : args.dry_run = false) :
    (deployPhase args nid sw mx s).ret =
      if s.visibleSerials.contains sw then
        (if s.visibleSerials.contains mx then 0 else 1)
      else 1 := by
  unfold deployPhase
  rw [hdry]
  simp only [Bool.false_eq_true, if_false]
  have h1 := deploy_ret s sw nid "Switch" args.address
  have hs1 := deploy_state s sw nid "Switch" args.address
  cases hv : s.visibleSerials.contains sw with
  | false =>
    rw [hv] at h1
    simp only [Bool.false_eq_true, if_false] at h1
    rw [h1]
    simp
  | true =>
    rw [hv] at h1
    simp only [if_true] at h1
    rw [h1]
    have h2 := deploy_ret (deploy_meraki_device s sw nid "Switch" args.address).state
      mx nid "MX85 Security Appliance" args.address
    rw [hs1.2.1] at h2
    cases hmx : s.visibleSerials.contains mx with
    | false =>
      rw [hmx] at h2
      simp only [Bool.false_eq_true, if_false] at h2
      rw [h2]
      simp
    | true =>
      rw [hmx] at h2
      simp only [if_true] at h2
      rw [h2]
      simp

theorem deployPhase_fail_sw (args : Args) (nid sw mx : String) (s : OrgState)
    (hdry : args.dry_run = false)
    (hv : s.visibleSerials.contains sw = false) :
    deployPhase args nid sw mx s =
      { ret := 1,
        state := (deploy_meraki_device s sw nid "Switch" args.address).state,
        trace := (deploy_meraki_device s sw nid "Switch" args.address).trace } := by
  unfold deployPhase
  rw [hdry]
  simp only [Bool.false_eq_true, if_false]
  have h1 := deploy_ret s sw nid "Switch" args.address
  rw [hv] at h1
  simp only [Bool.false_eq_true, if_false] at h1
  rw [h1]

theorem deployPhase_claims (args : Args) (nid sw mx : String) (s : OrgState) :
    ∀ nid' ls, ApiCall.claimNetworkDevices nid' ls ∈ (deployPhase args nid sw mx s).trace →
      nid' = nid ∧ (ls = [sw] ∨ ls = [mx]) := by
  intro nid' ls h
  unfold deployPhase at h
  cases hdry : args.dry_run with
  | true => rw [hdry] at h; simp at h
  | false =>
    rw [hdry] at h
    simp only [Bool.false_eq_true, if_false] at h
    cases hd1 : (deploy_meraki_device s sw nid "Switch" args.address).ret with
    | error c =>
      rw [hd1] at h
      simp only [] at h
      rcases deploy_claims s sw nid "Switch" args.address nid' ls h with ⟨h1, h2⟩
      exact ⟨h1, Or.inl h2⟩
    | ok u =>
      rw [hd1] at h
      cases hd2 : (deploy_meraki_device
          (deploy_meraki_device s sw nid "Switch" args.address).state mx nid
          "MX85 Security Appliance" args.address).ret with
      | error c =>
        rw [hd2] at h
        simp only [List.mem_append] at h
        rcases h with h | h
        · rcases deploy_claims s sw nid "Switch" args.address nid' ls h with ⟨h1, h2⟩
          exact ⟨h1, Or.inl h2⟩
        · rcases deploy_claims (deploy_meraki_device s sw nid "Switch" args.address).state
            mx nid "MX85 Security Appliance" args.address nid' ls h with ⟨h1, h2⟩
          exact ⟨h1, Or.inr h2⟩
      | ok u2 =>
        rw [hd2] at h
        simp only [List.mem_append] at h
        rcases h with h | h
        · rcases deploy_claims s sw nid "Switch" args.address nid' ls h with ⟨h1, h2⟩
          exact ⟨h1, Or.inl h2⟩
        · rcases deploy_claims (deploy_meraki_device s sw nid "Switch" args.address).state
            mx nid "MX85 Security Appliance" args.address nid' ls h with ⟨h1, h2⟩
          exact ⟨h1, Or.inr h2⟩

theorem get_available_orgDevices (s s' : OrgState) (h : s'.orgDevices = s.orgDevices) :
    get_available_devices s' = get_available_devices s := by
  unfold get_available_devices
  rw [h]

/-- The organization state ahead of serial selection: orgDevices and
visibleSerials are those of the initial state. -/

theorem tpState_frame (args : Args) (s : OrgState) :
    (templatePhase args
      ((get_or_create_network s args.network_name (parseTags args.tags)
        args.ignore_existing).ret.getD "")
      (get_or_create_network s args.network_name (parseTags args.tags)
        args.ignore_existing).state).1.orgDevices = s.orgDevices ∧
    (templatePhase args
      ((get_or_create_network s args.network_name (parseTags args.tags)
        args.ignore_existing).ret.getD "")
      (get_or_create_network s args.network_name (parseTags args.tags)
        args.ignore_existing).state).1.visibleSerials = s.visibleSerials := by
  have h1 := gocn_state_frame s args.network_name (parseTags args.tags) args.ignore_existing
  have h2 := templatePhase_frame args
    ((get_or_create_network s args.network_name (parseTags args.tags)
      args.ignore_existing).ret.getD "")
    (get_or_create_network s args.network_name (parseTags args.tags)
      args.ignore_existing).state
  exact ⟨h2.1.trans h1.1, h2.2.1.trans h1.2.1⟩

/-! ### Concrete fixtures for witnesses and counterexamples -/

/-! ### Claim theorems -/

/-- C3: when `--network-name` names a network that already exists in the
organization's listing and `--ignore-existing` is not set, resolution
returns no usable identifier (`None`) and the run exits with status 1
after only the listing call, before any device operation. -/

theorem C3_existing_name_without_ignore_is_fatal (args : Args) (s : OrgState)
    (n : String) (hname : args.network_name = some n) (hne : n ≠ "")
    (hig : args.ignore_existing = false)
    (hex : (s.networks.find? (fun nw => nw.name == n)).isSome = true) :
    (get_or_create_network s args.network_name (parseTags args.tags)
        args.ignore_existing).ret = none ∧
    main args s = { ret := 1, state := s, trace := [ApiCall.getOrganizationNetworks] } := by
  obtain ⟨nw, hnw⟩ := Option.isSome_iff_exists.mp hex
  have hg : get_or_create_network s args.network_name (parseTags args.tags)
      args.ignore_existing
      = { ret := none, state := s, trace := [ApiCall.getOrganizationNetworks] } := by
    rw [hname, hig]
    simp [get_or_create_network, truthyOpt, hne, hnw]
  refine ⟨by rw [hg], ?_⟩
  simp only [main, hg]
  simp [truthyOpt]

theorem C3_witness :
    main c3args c3state =
      { ret := 1, state := c3state, trace := [ApiCall.getOrganizationNetworks] } :=
  (C3_existing_name_without_ignore_is_fatal c3args c3state "Branch" rfl
    (by decide) rfl (by decide)).2

/-- C4: with `--ignore-existing`, network resolution on a fixed non-empty
name is idempotent: the first invocation returns an identifier, a second
invocation on the resulting organization state returns the same identifier,
issues only the listing call (zero creates) and leaves the state unchanged. -/

theorem C4_resolution_idempotent (s : OrgState) (n : String)
    (tg : Option (List String)) (hne : n ≠ "") :
    (get_or_create_network s (some n) tg true).ret.isSome = true ∧
    (get_or_create_network (get_or_create_network s (some n) tg true).state
        (some n) tg true).ret = (get_or_create_network s (some n) tg true).ret ∧
    (get_or_create_network (get_or_create_network s (some n) tg true).state
        (some n) tg true).trace = [ApiCall.getOrganizationNetworks] ∧
    (get_or_create_network (get_or_create_network s (some n) tg true).state
        (some n) tg true).state = (get_or_create_network s (some n) tg true).state := by
  have ht : truthyOpt (some n) = true := by simp [truthyOpt, hne]
  cases hf : s.networks.find? (fun nw => nw.name == n) with
  | some nw =>
    have hg : get_or_create_network s (some n) tg true =
        { ret := some nw.id, state := s, trace := [ApiCall.getOrganizationNetworks] } := by
      simp [get_or_create_network, ht, hf]
    rw [hg]
    simp [get_or_create_network, ht, hf]
  | none =>
    have hg : get_or_create_network s (some n) tg true =
        { ret := some ("N_" ++ toString s.freshId),
          state := { s with
            networks := s.networks ++
              [{ id := "N_" ++ toString s.freshId, name := n, tags := tg.getD [] }],
            freshId := s.freshId + 1 },
          trace := [ApiCall.getOrganizationNetworks,
                    ApiCall.createOrganizationNetwork n (tg.getD [])] } := by
      simp [get_or_create_network, ht, hf]
    rw [hg]
    have hf2 : (s.networks ++
        [(⟨"N_" ++ toString s.freshId, n, tg.getD []⟩ : Network)]).find?
          (fun nw => nw.name == n) =
        some (⟨"N_" ++ toString s.freshId, n, tg.getD []⟩ : Network) := by
      rw [List.find?_append, hf]
      simp
    simp [get_or_create_network, ht, hf2]

theorem C4_witness :
    (get_or_create_network emptyOrg (some "Branch") none true).ret.isSome = true ∧
    (get_or_create_network (get_or_create_network emptyOrg (some "Branch") none true).state
        (some "Branch") none true).ret
      = (get_or_create_network emptyOrg (some "Branch") none true).ret ∧
    (get_or_create_network (get_or_create_network emptyOrg (some "Branch") none true).state
        (some "Branch") none true).trace = [ApiCall.getOrganizationNetworks] ∧
    (get_or_create_network (get_or_create_network emptyOrg (some "Branch") none true).state
        (some "Branch") none true).state
      = (get_or_create_network emptyOrg (some "Branch") none true).state :=
  C4_resolution_idempotent emptyOrg "Branch" none (by decide)

/-- C10: network resolution never mutates an existing network: when it
returns an existing network's identifier — a name match under
`--ignore-existing`, or the first listed network when no name is given —
the organization state is returned unchanged (the supplied tags are
dropped) and the only call issued is the read-only listing. -/

theorem C10_resolution_frame :
    (∀ (s : OrgState) (n : String) (tg : Option (List String)) (nw : Network),
      n ≠ "" → s.networks.find? (fun x => x.name == n) = some nw →
      get_or_create_network s (some n) tg true =
        { ret := some nw.id, state := s, trace := [ApiCall.getOrganizationNetworks] }) ∧
    (∀ (s : OrgState) (tg : Option (List String)) (ig : Bool) (nn : Option String)
      (nw : Network) (rest : List Network),
      truthyOpt nn = false → s.networks = nw :: rest →
      get_or_create_network s nn tg ig =
        { ret := some nw.id, state := s, trace := [ApiCall.getOrganizationNetworks] }) := by
  constructor
  · intro s n tg nw hne hf
    simp [get_or_create_network, truthyOpt, hne, hf]
  · intro s tg ig nn nw rest hnn hs
    simp [get_or_create_network, hnn, hs]

theorem C10_witness :
    get_or_create_network c10state (some "Branch") (some ["retail", "west"]) true =
      { ret := some "L_1", state := c10state,
        trace := [ApiCall.getOrganizationNetworks] } ∧
    get_or_create_network c10state none (some ["retail", "west"]) false =
      { ret := some "L_1", state := c10state,
        trace := [ApiCall.getOrganizationNetworks] } :=
  ⟨C10_resolution_frame.1 c10state "Branch" (some ["retail", "west"]) c10net
    (by decide) (by decide),
   C10_resolution_frame.2 c10state (some ["retail", "west"]) false none c10net []
    (by decide) (by decide)⟩

/-- The device locator as the claim words it: per class, the first device
in inventory order whose model contains the class substring. -/

theorem get_available_trace (s : OrgState) :
    (get_available_devices s).2 = [ApiCall.getOrganizationDevices] := by
  simp only [get_available_devices]
  split <;> rfl

theorem locFold_spec (ds : List Device) :
    ∀ (sw mx : Option String),
      (∀ d ∈ ds, ¬(strContains d.model "MS" = true ∧ strContains d.model "MX85" = true)) →
      (∀ d ∈ ds, d.serial ≠ "") →
      (truthyOpt sw = false → sw = none) →
      (truthyOpt mx = false → mx = none) →
      ds.foldl locStep (sw, mx) =
        ((if truthyOpt sw then sw
          else (ds.find? (fun d => strContains d.model "MS")).map (fun d => d.serial)),
         (if truthyOpt mx then mx
          else (ds.find? (fun d => strContains d.model "MX85")).map (fun d => d.serial))) := by
  induction ds with
  | nil =>
    intro sw mx hboth hser hsw hmx
    cases h1 : truthyOpt sw with
    | true =>
      cases h2 : truthyOpt mx with
      | true => simp [h1, h2]
      | false => simp [h1, h2, hmx h2]
    | false =>
      cases h2 : truthyOpt mx with
      | true => simp [h1, h2, hsw h1]
      | false => simp [h1, h2, hsw h1, hmx h2]
  | cons d ds ih =>
    intro sw mx hboth hser hsw hmx
    have hbd := hboth d (List.mem_cons_self d ds)
    have hsd := hser d (List.mem_cons_self d ds)
    have hboth' : ∀ x ∈ ds,
        ¬(strContains x.model "MS" = true ∧ strContains x.model "MX85" = true) :=
      fun x hx => hboth x (List.mem_cons_of_mem d hx)
    have hser' : ∀ x ∈ ds, x.serial ≠ "" :=
      fun x hx => hser x (List.mem_cons_of_mem d hx)
    rw [List.foldl_cons]
    by_cases hms : strContains d.model "MS" = true
    · have hmx85 : strContains d.model "MX85" = false := by
        cases h : strContains d.model "MX85" with
        | true => exact absurd ⟨hms, h⟩ hbd
        | false => rfl
      by_cases hswt : truthyOpt sw = true
      · have hstep : locStep (sw, mx) d = (sw, mx) := by
          simp [locStep, hms, hswt, hmx85]
        rw [hstep, ih sw mx hboth' hser' hsw hmx]
        simp [hswt, hms, hmx85]
      · have hswf : truthyOpt sw = false := by simpa using hswt
        have htd : truthyOpt (some d.serial) = true := by simp [truthyOpt, hsd]
        have hstep : locStep (sw, mx) d = (some d.serial, mx) := by
          simp [locStep, hms, hswf]
        rw [hstep, ih (some d.serial) mx hboth' hser'
          (fun hc => absurd hc (by simp [htd])) hmx]
        simp [htd, hswf, hms, hmx85]
    · have hmsf : strContains d.model "MS" = false := by simpa using hms
      by_cases hmx85 : strContains d.model "MX85" = true
      · by_cases hmxt : truthyOpt mx = true
        · have hstep : locStep (sw, mx) d = (sw, mx) := by
            simp [locStep, hmsf, hmx85, hmxt]
          rw [hstep, ih sw mx hboth' hser' hsw hmx]
          simp [hmxt, hmsf]
        · have hmxf : truthyOpt mx = false := by simpa using hmxt
          have htd : truthyOpt (some d.serial) = true := by simp [truthyOpt, hsd]
          have hstep : locStep (sw, mx) d = (sw, some d.serial) := by
            simp [locStep, hmsf, hmx85, hmxf]
          rw [hstep, ih sw (some d.serial) hboth' hser' hsw
            (fun hc => absurd hc (by simp [htd]))]
          simp [htd, hmxf, hmsf, hmx85]
      · have hmx85f : strContains d.model "MX85" = false := by simpa using hmx85
        have hstep : locStep (sw, mx) d = (sw, mx) := by
          simp [locStep, hmsf, hmx85f]
        rw [hstep, ih sw mx hboth' hser' hsw hmx]
        simp [hmsf, hmx85f]

/-- C5 counterexample: on an inventory whose first device's model contains
both "MS" and "MX85", the code's `elif` consumes it for the switch slot and
the appliance slot gets the second MX85 device, while the claimed
first-match-per-class policy demands the first: `get_available_devices`
returns ("A", "B") but the per-class first matches are ("A", "A"). -/

theorem C5_counterexample :
    (get_available_devices { emptyOrg with orgDevices := c5inventory }).1
        = some ("A", "B") ∧
    locateDevicesClaimed c5inventory = (some "A", some "A") ∧
    locateDevices c5inventory ≠ locateDevicesClaimed c5inventory :=
  ⟨by decide, by decide, by decide⟩

/-- C5 (amended): provided no device's model contains both "MS" and "MX85"
and device serials are non-empty, the locator realises exactly the claimed
first-match-per-class policy (switch: first model containing "MS";
appliance: first model containing "MX85").  When the locator cannot return
both classes (and explicit serials were not both supplied), the run exits
with status 1 and no claim call is ever issued — no partial deployment. -/

theorem C5_locator_first_match_amended :
    (∀ ds : List Device,
      (∀ d ∈ ds, ¬(strContains d.model "MS" = true ∧ strContains d.model "MX85" = true)) →
      (∀ d ∈ ds, d.serial ≠ "") →
      locateDevices ds = locateDevicesClaimed ds) ∧
    (∀ (args : Args) (s : OrgState),
      (truthyOpt args.switch_serial && truthyOpt args.appliance_serial) = false →
      (get_available_devices s).1 = none →
      (main args s).ret = 1 ∧ (main args s).trace.all (fun c => !(c.isClaim)) = true) := by
  constructor
  · intro ds hboth hser
    unfold locateDevices locateDevicesClaimed
    rw [locFold_spec ds none none hboth hser (fun _ => rfl) (fun _ => rfl)]
    simp [truthyOpt]
  · intro args s hargs hnone
    cases ht : truthyOpt (get_or_create_network s args.network_name
        (parseTags args.tags) args.ignore_existing).ret with
    | false =>
      have hmain : main args s =
          { ret := 1,
            state := (get_or_create_network s args.network_name
              (parseTags args.tags) args.ignore_existing).state,
            trace := (get_or_create_network s args.network_name
              (parseTags args.tags) args.ignore_existing).trace } := by
        simp only [main]
        rw [ht]
        simp
      rw [hmain]
      refine ⟨rfl, ?_⟩
      rcases gocn_trace_shape s args.network_name (parseTags args.tags)
        args.ignore_existing with h | ⟨nm, tgl, h⟩ <;> simp [h, ApiCall.isClaim]
    | true =>
      have hms : mainSerials args (templatePhase args
          ((get_or_create_network s args.network_name (parseTags args.tags)
            args.ignore_existing).ret.getD "")
          (get_or_create_network s args.network_name (parseTags args.tags)
            args.ignore_existing).state).1 = get_available_devices s := by
        unfold mainSerials
        rw [hargs]
        simp only [Bool.false_eq_true, if_false]
        exact get_available_orgDevices _ _ (tpState_frame args s).1
      have hmain : main args s =
          { ret := 1,
            state := (templatePhase args
              ((get_or_create_network s args.network_name (parseTags args.tags)
                args.ignore_existing).ret.getD "")
              (get_or_create_network s args.network_name (parseTags args.tags)
                args.ignore_existing).state).1,
            trace := (get_or_create_network s args.network_name
                (parseTags args.tags) args.ignore_existing).trace ++
              (templatePhase args
                ((get_or_create_network s args.network_name (parseTags args.tags)
                  args.ignore_existing).ret.getD "")
                (get_or_create_network s args.network_name (parseTags args.tags)
                  args.ignore_existing).state).2 ++
              (get_available_devices s).2 } := by
        simp only [main]
        rw [ht]
        simp only [if_true]
        rw [hms, hnone]
      rw [hmain]
      refine ⟨rfl, ?_⟩
      simp only [List.all_append]
      rcases gocn_trace_shape s args.network_name (parseTags args.tags)
        args.ignore_existing with h1 | ⟨nm, tgl, h1⟩ <;>
      rcases templatePhase_trace_shape args
        ((get_or_create_network s args.network_name (parseTags args.tags)
          args.ignore_existing).ret.getD "")
        (get_or_create_network s args.network_name (parseTags args.tags)
          args.ignore_existing).state with h2 | h2 | ⟨tid, h2⟩ <;>
      simp [h1, h2, get_available_trace, ApiCall.isClaim]

theorem C5_witness :
    (locateDevices [{ serial := "S1", model := "MS220" },
        { serial := "A1", model := "MX85W" }] =
      locateDevicesClaimed [{ serial := "S1", model := "MS220" },
        { serial := "A1", model := "MX85W" }]) ∧
    ((main baseArgs emptyOrg).ret = 1 ∧
      (main baseArgs emptyOrg).trace.all (fun c => !(c.isClaim)) = true) :=
  ⟨C5_locator_first_match_amended.1
    [{ serial := "S1", model := "MS220" }, { serial := "A1", model := "MX85W" }]
    (by decide) (by decide),
   C5_locator_first_match_amended.2 baseArgs emptyOrg (by decide) (by decide)⟩

theorem gocn_calls (s : OrgState) (nn : Option String) (tg : Option (List String))
    (ig : Bool) :
    ∀ c ∈ (get_or_create_network s nn tg ig).trace, c.isResolveCall = true := by
  intro c h
  rcases gocn_trace_shape s nn tg ig with hs | ⟨nm, tgl, hs⟩
  · rw [hs] at h; simp at h; subst h; rfl
  · rw [hs] at h; simp at h; rcases h with h | h <;> (subst h; rfl)

theorem templatePhase_calls (args : Args) (nid : String) (s : OrgState) :
    ∀ c ∈ (templatePhase args nid s).2, c.isTemplateCall = true := by
  intro c h
  rcases templatePhase_trace_shape args nid s with hs | hs | ⟨tid, hs⟩
  · rw [hs] at h; simp at h
  · rw [hs] at h; simp at h; subst h; rfl
  · rw [hs] at h; simp at h; rcases h with h | h <;> (subst h; rfl)

theorem mainSerials_trace_shape (args : Args) (s : OrgState) :
    (mainSerials args s).2 = [] ∨
    (mainSerials args s).2 = [ApiCall.getOrganizationDevices] := by
  unfold mainSerials
  split
  · exact Or.inl rfl
  · exact Or.inr (get_available_trace s)

theorem deploy_calls (s : OrgState) (ser nid dt : String) (addr : Option String) :
    ∀ c ∈ (deploy_meraki_device s ser nid dt addr).trace, c.isDeployCall = true := by
  intro c h
  rw [deploy_trace_shape] at h
  rcases List.mem_cons.mp h with h | h
  · subst h; rfl
  rcases List.mem_append.mp h with h | h
  · rcases cosmetic_trace_shape { s with netMembers := s.netMembers ++ [(nid, ser)] }
      ser addr with hs | ⟨nm, hs⟩ | ⟨nm, a, hs⟩
    · rw [hs] at h; simp at h; subst h; rfl
    · rw [hs] at h; simp at h; rcases h with h | h <;> (subst h; rfl)
    · rw [hs] at h; simp at h; rcases h with h | h | h <;> (subst h; rfl)
  · simp at h; subst h; rfl

theorem deployPhase_mem (args : Args) (nid sw mx : String) (s : OrgState) :
    ∀ c ∈ (deployPhase args nid sw mx s).trace,
      c ∈ (deploy_meraki_device s sw nid "Switch" args.address).trace ∨
      c ∈ (deploy_meraki_device
            (deploy_meraki_device s sw nid "Switch" args.address).state
            mx nid "MX85 Security Appliance" args.address).trace := by
  intro c h
  unfold deployPhase at h
  cases hdry : args.dry_run with
  | true => rw [hdry] at h; simp at h
  | false =>
    rw [hdry] at h
    simp only [Bool.false_eq_true, if_false] at h
    cases hd1 : (deploy_meraki_device s sw nid "Switch" args.address).ret with
    | error c1 =>
      rw [hd1] at h
      exact Or.inl h
    | ok u =>
      rw [hd1] at h
      cases hd2 : (deploy_meraki_device
          (deploy_meraki_device s sw nid "Switch" args.address).state
          mx nid "MX85 Security Appliance" args.address).ret with
      | error c2 =>
        rw [hd2] at h
        rcases List.mem_append.mp h with h | h
        · exact Or.inl h
        · exact Or.inr h
      | ok u2 =>
        rw [hd2] at h
        rcases List.mem_append.mp h with h | h
        · exact Or.inl h
        · exact Or.inr h

theorem deployPhase_calls (args : Args) (nid sw mx : String) (s : OrgState) :
    ∀ c ∈ (deployPhase args nid sw mx s).trace, c.isDeployCall = true := by
  intro c h
  rcases deployPhase_mem args nid sw mx s c h with h | h
  · exact deploy_calls _ _ _ _ _ c h
  · exact deploy_calls _ _ _ _ _ c h

theorem main_trace_mem (args : Args) (s : OrgState) :
    ∀ c ∈ (main args s).trace,
      c ∈ (get_or_create_network s args.network_name (parseTags args.tags)
            args.ignore_existing).trace ∨
      c ∈ (templatePhase args
            ((get_or_create_network s args.network_name (parseTags args.tags)
              args.ignore_existing).ret.getD "")
            (get_or_create_network s args.network_name (parseTags args.tags)
              args.ignore_existing).state).2 ∨
      c ∈ (mainSerials args (templatePhase args
            ((get_or_create_network s args.network_name (parseTags args.tags)
              args.ignore_existing).ret.getD "")
            (get_or_create_network s args.network_name (parseTags args.tags)
              args.ignore_existing).state).1).2 ∨
      ∃ sw mx,
        (mainSerials args (templatePhase args
            ((get_or_create_network s args.network_name (parseTags args.tags)
              args.ignore_existing).ret.getD "")
            (get_or_create_network s args.network_name (parseTags args.tags)
              args.ignore_existing).state).1).1 = some (sw, mx) ∧
        c ∈ (deployPhase args
            ((get_or_create_network s args.network_name (parseTags args.tags)
              args.ignore_existing).ret.getD "") sw mx
            (templatePhase args
              ((get_or_create_network s args.network_name (parseTags args.tags)
                args.ignore_existing).ret.getD "")
              (get_or_create_network s args.network_name (parseTags args.tags)
                args.ignore_existing).state).1).trace := by
  intro c hc
  simp only [main] at hc
  cases ht : truthyOpt (get_or_create_network s args.network_name (parseTags args.tags)
      args.ignore_existing).ret with
  | false =>
    rw [ht] at hc
    simp only [Bool.false_eq_true, if_false] at hc
    exact Or.inl hc
  | true =>
    rw [ht] at hc
    simp only [if_true] at hc
    cases hr3 : (mainSerials args (templatePhase args
        ((get_or_create_network s args.network_name (parseTags args.tags)
          args.ignore_existing).ret.getD "")
        (get_or_create_network s args.network_name (parseTags args.tags)
          args.ignore_existing).state).1).1 with
    | none =>
      rw [hr3] at hc
      simp only [List.mem_append] at hc
      rcases hc with (hc | hc) | hc
      · exact Or.inl hc
      · exact Or.inr (Or.inl hc)
      · exact Or.inr (Or.inr (Or.inl hc))
    | some p =>
      obtain ⟨sw, mx⟩ := p
      rw [hr3] at hc
      simp only [List.mem_append] at hc
      rcases hc with ((hc | hc) | hc) | hc
      · exact Or.inl hc
      · exact Or.inr (Or.inl hc)
      · exact Or.inr (Or.inr (Or.inl hc))
      · exact Or.inr (Or.inr (Or.inr ⟨sw, mx, rfl, hc⟩))

/-- C1 counterexample: a dry-run against an organization that does not have
the requested network still issues the mutating createOrganizationNetwork
call, because network resolution runs before any dry-run check. -/

theorem C1_counterexample :
    c1args.dry_run = true ∧
    (main c1args emptyOrg).trace =
      [ApiCall.getOrganizationNetworks,
       ApiCall.createOrganizationNetwork "Branch-12" []] ∧
    (ApiCall.createOrganizationNetwork "Branch-12" []).isMutating = true := by
  decide

/-- C1 (amended): in a dry-run no claim, device-update, or bind call is
ever issued; the only mutating call a dry-run may issue is the
createOrganizationNetwork of network resolution, which runs before the
dry-run check. -/

theorem C1_dry_run_no_claim_update_bind (args : Args) (s : OrgState)
    (hdry : args.dry_run = true) :
    (main args s).trace.all (fun c => !(c.isDeviceMutation)) = true := by
  rw [List.all_eq_true]
  intro c hc
  rcases main_trace_mem args s c hc with h | h | h | ⟨sw, mx, hr3, h⟩
  · rcases gocn_trace_shape s args.network_name (parseTags args.tags)
      args.ignore_existing with hs | ⟨nm, tgl, hs⟩
    · rw [hs] at h; simp at h; subst h; rfl
    · rw [hs] at h; simp at h; rcases h with h | h <;> (subst h; rfl)
  · rw [templatePhase_dry args _ _ hdry] at h
    simp at h
  · rcases mainSerials_trace_shape args _ with hs | hs
    · rw [hs] at h; simp at h
    · rw [hs] at h; simp at h; subst h; rfl
  · rw [deployPhase_dry args _ sw mx _ hdry] at h
    simp at h

theorem C1_witness :
    (main c1args emptyOrg).trace.all (fun c => !(c.isDeviceMutation)) = true :=
  C1_dry_run_no_claim_update_bind c1args emptyOrg rfl

/-- C9: if exactly one of --switch-serial and --appliance-serial is
supplied (the other absent), the supplied serial is silently ignored:
serial selection falls back to auto-detection for both classes, so the
serials handed to deployment are the auto-detected ones. -/

theorem C9_single_serial_ignored (args : Args) (s : OrgState)
    (h : (truthyOpt args.switch_serial = true ∧ args.appliance_serial = none) ∨
         (args.switch_serial = none ∧ truthyOpt args.appliance_serial = true)) :
    mainSerials args s = get_available_devices s := by
  unfold mainSerials
  rcases h with ⟨h1, h2⟩ | ⟨h1, h2⟩
  · rw [h2]; simp [truthyOpt]
  · rw [h1]; simp [truthyOpt]

theorem C9_witness :
    mainSerials c9args emptyOrg = get_available_devices emptyOrg :=
  C9_single_serial_ignored c9args emptyOrg (Or.inl ⟨by decide, rfl⟩)

theorem mainSerials_both (args : Args) (s : OrgState)
    (hsw : truthyOpt args.switch_serial = true)
    (hap : truthyOpt args.appliance_serial = true) :
    mainSerials args s =
      (some (args.switch_serial.getD "", args.appliance_serial.getD ""), []) := by
  unfold mainSerials
  simp [hsw, hap]

/-- C6: when both --switch-serial and --appliance-serial are supplied, the
device locator (organization inventory listing) is never invoked, and the
only serials ever claimed are the two supplied values. -/

theorem C6_explicit_serials_only (args : Args) (s : OrgState)
    (hsw : truthyOpt args.switch_serial = true)
    (hap : truthyOpt args.appliance_serial = true) :
    ApiCall.getOrganizationDevices ∉ (main args s).trace ∧
    ∀ nid ls, ApiCall.claimNetworkDevices nid ls ∈ (main args s).trace →
      ls = [args.switch_serial.getD ""] ∨ ls = [args.appliance_serial.getD ""] := by
  constructor
  · intro hc
    rcases main_trace_mem args s _ hc with h | h | h | ⟨sw, mx, hr3, h⟩
    · have := gocn_calls s args.network_name (parseTags args.tags)
        args.ignore_existing _ h
      simp [ApiCall.isResolveCall] at this
    · have := templatePhase_calls args _ _ _ h
      simp [ApiCall.isTemplateCall] at this
    · rw [mainSerials_both args _ hsw hap] at h
      simp at h
    · have := deployPhase_calls args _ sw mx _ _ h
      simp [ApiCall.isDeployCall] at this
  · intro nid ls hc
    rcases main_trace_mem args s _ hc with h | h | h | ⟨sw, mx, hr3, h⟩
    · have := gocn_calls s args.network_name (parseTags args.tags)
        args.ignore_existing _ h
      simp [ApiCall.isResolveCall] at this
    · have := templatePhase_calls args _ _ _ h
      simp [ApiCall.isTemplateCall] at this
    · rw [mainSerials_both args _ hsw hap] at h
      simp at h
    · rw [mainSerials_both args _ hsw hap] at hr3
      simp only [Option.some.injEq, Prod.mk.injEq] at hr3
      rcases deployPhase_claims args _ sw mx _ nid ls h with ⟨hnid, hls⟩
      rcases hls with hls | hls
      · exact Or.inl (by rw [hls, hr3.1])
      · exact Or.inr (by rw [hls, hr3.2])

theorem C6_witness :
    ApiCall.getOrganizationDevices ∉ (main c6args c6state).trace ∧
    ∀ nid ls, ApiCall.claimNetworkDevices nid ls ∈ (main c6args c6state).trace →
      ls = [c6args.switch_serial.getD ""] ∨ ls = [c6args.appliance_serial.getD ""] :=
  C6_explicit_serials_only c6args c6state (by decide) (by decide)

/-- C2: a device deployment reports success exactly when the
getNetworkDevices listing re-fetched after the claim contains the claimed
serial, and exits with status 1 otherwise; at the run level, when the
switch deployment's verification fails the whole run exits 1 and the
appliance stage never runs — the only serial ever claimed is the switch's. -/

theorem C2_verification_gates_success :
    (∀ (s : OrgState) (ser nid dt : String) (addr : Option String),
      ((deploy_meraki_device s ser nid dt addr).ret = Except.ok () ↔
        (networkSerials (deploy_meraki_device s ser nid dt addr).state nid).contains ser
          = true) ∧
      ((networkSerials (deploy_meraki_device s ser nid dt addr).state nid).contains ser
          = false →
        (deploy_meraki_device s ser nid dt addr).ret = Except.error 1)) ∧
    (∀ (args : Args) (s : OrgState) (sw mx : String),
      args.dry_run = false →
      (mainSerials args s).1 = some (sw, mx) →
      s.visibleSerials.contains sw = false →
      (main args s).ret = 1 ∧
      ∀ nid ls, ApiCall.claimNetworkDevices nid ls ∈ (main args s).trace →
        ls = [sw]) := by
  constructor
  · intro s ser nid dt addr
    have hd := deploy_state s ser nid dt addr
    have hkey : (networkSerials (deploy_meraki_device s ser nid dt addr).state
        nid).contains ser = s.visibleSerials.contains ser := by
      unfold networkSerials
      rw [hd.1, hd.2.1]
      exact serials_filter_contains s.netMembers s.visibleSerials nid ser
    have hret := deploy_ret s ser nid dt addr
    rw [hkey, hret]
    cases hv : s.visibleSerials.contains ser <;> simp [hv]
  · intro args s sw mx hdry hsel hv
    cases ht : truthyOpt (get_or_create_network s args.network_name (parseTags args.tags)
        args.ignore_existing).ret with
    | false =>
      have hmain : main args s =
          { ret := 1,
            state := (get_or_create_network s args.network_name (parseTags args.tags)
              args.ignore_existing).state,
            trace := (get_or_create_network s args.network_name (parseTags args.tags)
              args.ignore_existing).trace } := by
        simp only [main]
        rw [ht]
        simp
      rw [hmain]
      refine ⟨rfl, ?_⟩
      intro nid ls h
      have := gocn_calls s args.network_name (parseTags args.tags) args.ignore_existing _ h
      simp [ApiCall.isResolveCall] at this
    | true =>
      have htps := tpState_frame args s
      have hms : mainSerials args (templatePhase args
          ((get_or_create_network s args.network_name (parseTags args.tags)
            args.ignore_existing).ret.getD "")
          (get_or_create_network s args.network_name (parseTags args.tags)
            args.ignore_existing).state).1 = mainSerials args s :=
        mainSerials_orgDevices args s _ htps.1
      have hvtp : (templatePhase args
          ((get_or_create_network s args.network_name (parseTags args.tags)
            args.ignore_existing).ret.getD "")
          (get_or_create_network s args.network_name (parseTags args.tags)
            args.ignore_existing).state).1.visibleSerials.contains sw = false := by
        rw [htps.2]
        exact hv
      have hdp := deployPhase_fail_sw args
        ((get_or_create_network s args.network_name (parseTags args.tags)
          args.ignore_existing).ret.getD "") sw mx
        (templatePhase args
          ((get_or_create_network s args.network_name (parseTags args.tags)
            args.ignore_existing).ret.getD "")
          (get_or_create_network s args.network_name (parseTags args.tags)
            args.ignore_existing).state).1 hdry hvtp
      have hmain : main args s =
          { ret := 1,
            state := (deploy_meraki_device (templatePhase args
              ((get_or_create_network s args.network_name (parseTags args.tags)
                args.ignore_existing).ret.getD "")
              (get_or_create_network s args.network_name (parseTags args.tags)
                args.ignore_existing).state).1 sw
              ((get_or_create_network s args.network_name (parseTags args.tags)
                args.ignore_existing).ret.getD "") "Switch" args.address).state,
            trace := (get_or_create_network s args.network_name (parseTags args.tags)
                args.ignore_existing).trace ++
              (templatePhase args
                ((get_or_create_network s args.network_name (parseTags args.tags)
                  args.ignore_existing).ret.getD "")
                (get_or_create_network s args.network_name (parseTags args.tags)
                  args.ignore_existing).state).2 ++
              (mainSerials args s).2 ++
              (deploy_meraki_device (templatePhase args
                ((get_or_create_network s args.network_name (parseTags args.tags)
                  args.ignore_existing).ret.getD "")
                (get_or_create_network s args.network_name (parseTags args.tags)
                  args.ignore_existing).state).1 sw
                ((get_or_create_network s args.network_name (parseTags args.tags)
                  args.ignore_existing).ret.getD "") "Switch" args.address).trace } := by
        simp only [main]
        rw [ht]
        simp only [if_true]
        rw [hms, hsel]
        simp only []
        rw [hdp]
      rw [hmain]
      refine ⟨rfl, ?_⟩
      intro nid ls h
      simp only [List.mem_append] at h
      rcases h with ((h | h) | h) | h
      · have := gocn_calls s args.network_name (parseTags args.tags) args.ignore_existing _ h
        simp [ApiCall.isResolveCall] at this
      · have := templatePhase_calls args _ _ _ h
        simp [ApiCall.isTemplateCall] at this
      · rcases mainSerials_trace_shape args s with hs | hs
        · rw [hs] at h; simp at h
        · rw [hs] at h; simp at h
      · exact (deploy_claims _ sw _ "Switch" args.address nid ls h).2

theorem C2_witness :
    ((deploy_meraki_device c2state "SW1" "L_1" "Switch" none).ret = Except.ok () ↔
      (networkSerials (deploy_meraki_device c2state "SW1" "L_1" "Switch" none).state
        "L_1").contains "SW1" = true) ∧
    ((main c2args c2state).ret = 1 ∧
      ∀ nid ls, ApiCall.claimNetworkDevices nid ls ∈ (main c2args c2state).trace →
        ls = ["SW1"]) :=
  ⟨(C2_verification_gates_success.1 c2state "SW1" "L_1" "Switch" none).1,
   C2_verification_gates_success.2 c2args c2state "SW1" "MX1" rfl (by decide) (by decide)⟩

/-- C7: when --template names a template with no exact-name match among the
organization's templates, the binder returns False having issued only the
template listing (no bind call); at the run level the orchestrator logs a
warning and continues: when both device deployments verify, the run exits 0
and no bindNetwork call ever appears in the trace. -/

theorem C7_missing_template_nonfatal :
    (∀ (s : OrgState) (nid tname : String),
      s.templates.find? (fun t => t.name == tname) = none →
      bind_network_to_template s nid tname =
        { ret := false, state := s,
          trace := [ApiCall.getOrganizationConfigTemplates] }) ∧
    (∀ (args : Args) (s : OrgState) (tname sw mx : String),
      args.template = some tname → tname ≠ "" →
      s.templates.find? (fun t => t.name == tname) = none →
      args.dry_run = false →
      truthyOpt (get_or_create_network s args.network_name (parseTags args.tags)
        args.ignore_existing).ret = true →
      (mainSerials args s).1 = some (sw, mx) →
      s.visibleSerials.contains sw = true →
      s.visibleSerials.contains mx = true →
      (main args s).ret = 0 ∧
      ∀ nid tid, ApiCall.bindNetwork nid tid ∉ (main args s).trace) := by
  have hbind : ∀ (s' : OrgState) (nid tname' : String),
      s'.templates.find? (fun t => t.name == tname') = none →
      bind_network_to_template s' nid tname' =
        { ret := false, state := s',
          trace := [ApiCall.getOrganizationConfigTemplates] } := by
    intro s' nid tname' hf
    simp [bind_network_to_template, hf]
  refine ⟨hbind, ?_⟩
  intro args s tname sw mx htemp htname hfind hdry ht hsel hsw hmx
  have hgf := gocn_state_frame s args.network_name (parseTags args.tags) args.ignore_existing
  have hcond : (truthyOpt args.template && !args.dry_run) = true := by
    rw [htemp, hdry]
    simp [truthyOpt, htname]
  have hb := hbind (get_or_create_network s args.network_name (parseTags args.tags)
      args.ignore_existing).state
    ((get_or_create_network s args.network_name (parseTags args.tags)
      args.ignore_existing).ret.getD "")
    (args.template.getD "")
    (by rw [hgf.2.2.2, htemp]; simpa using hfind)
  have htp : templatePhase args
      ((get_or_create_network s args.network_name (parseTags args.tags)
        args.ignore_existing).ret.getD "")
      (get_or_create_network s args.network_name (parseTags args.tags)
        args.ignore_existing).state =
      ((get_or_create_network s args.network_name (parseTags args.tags)
        args.ignore_existing).state,
       [ApiCall.getOrganizationConfigTemplates]) := by
    unfold templatePhase
    rw [hcond]
    simp only [if_true]
    rw [hb]
  have hms : mainSerials args (get_or_create_network s args.network_name
      (parseTags args.tags) args.ignore_existing).state = mainSerials args s :=
    mainSerials_orgDevices args s _ hgf.1
  have hdpret := deployPhase_ret args
    ((get_or_create_network s args.network_name (parseTags args.tags)
      args.ignore_existing).ret.getD "") sw mx
    (get_or_create_network s args.network_name (parseTags args.tags)
      args.ignore_existing).state hdry
  rw [hgf.2.1, hsw, hmx] at hdpret
  simp only [if_true] at hdpret
  have hmain : main args s =
      { ret := (deployPhase args
          ((get_or_create_network s args.network_name (parseTags args.tags)
            args.ignore_existing).ret.getD "") sw mx
          (get_or_create_network s args.network_name (parseTags args.tags)
            args.ignore_existing).state).ret,
        state := (deployPhase args
          ((get_or_create_network s args.network_name (parseTags args.tags)
            args.ignore_existing).ret.getD "") sw mx
          (get_or_create_network s args.network_name (parseTags args.tags)
            args.ignore_existing).state).state,
        trace := (get_or_create_network s args.network_name (parseTags args.tags)
            args.ignore_existing).trace ++
          [ApiCall.getOrganizationConfigTemplates] ++
          (mainSerials args s).2 ++
          (deployPhase args
            ((get_or_create_network s args.network_name (parseTags args.tags)
              args.ignore_existing).ret.getD "") sw mx
            (get_or_create_network s args.network_name (parseTags args.tags)
              args.ignore_existing).state).trace } := by
    simp only [main]
    rw [ht]
    simp only [if_true]
    rw [htp]
    simp only []
    rw [hms, hsel]
  rw [hmain]
  refine ⟨hdpret, ?_⟩
  intro nid tid h
  simp only [List.mem_append] at h
  rcases h with ((h | h) | h) | h
  · have := gocn_calls s args.network_name (parseTags args.tags) args.ignore_existing _ h
    simp [ApiCall.isResolveCall] at this
  · simp at h
  · rcases mainSerials_trace_shape args s with hs | hs
    · rw [hs] at h; simp at h
    · rw [hs] at h; simp at h
  · have := deployPhase_calls args _ sw mx _ _ h
    simp [ApiCall.isDeployCall] at this

theorem C7_witness :
    (bind_network_to_template c7state "L_1" "HQ-Template" =
      { ret := false, state := c7state,
        trace := [ApiCall.getOrganizationConfigTemplates] }) ∧
    ((main c7args c7state).ret = 0 ∧
      ∀ nid tid, ApiCall.bindNetwork nid tid ∉ (main c7args c7state).trace) :=
  ⟨C7_missing_template_nonfatal.1 c7state "L_1" "HQ-Template" (by decide),
   C7_missing_template_nonfatal.2 c7args c7state "HQ-Template" "SW1" "MX1" rfl
     (by decide) (by decide) rfl (by decide) (by decide) (by decide) (by decide)⟩

theorem cosmetic_with_address (s' : OrgState) (ser a : String) (d : Device)
    (ha : a ≠ "")
    (hfind : s'.orgDevices.find? (fun x => x.serial == ser) = some d)
    (hget : s'.getDeviceFails.contains ser = false) :
    ((deployCosmetic s' ser (some a)).2 =
        [ApiCall.getDevice ser,
         ApiCall.updateDeviceName ser (d.model ++ "_" ++ ser)] ∧
      s'.updateNameFails.contains ser = true) ∨
    ((deployCosmetic s' ser (some a)).2 =
        [ApiCall.getDevice ser,
         ApiCall.updateDeviceName ser (d.model ++ "_" ++ ser),
         ApiCall.updateDeviceAddress ser a true] ∧
      s'.updateNameFails.contains ser = false) := by
  have hta : truthyOpt (some a) = true := by simp [truthyOpt, ha]
  simp only [deployCosmetic]
  rw [hfind]
  simp only [hget, Bool.false_eq_true, if_false]
  cases hn : s'.updateNameFails.contains ser with
  | true =>
    simp only [if_true]
    exact Or.inl ⟨by trivial, by trivial⟩
  | false =>
    simp only [Bool.false_eq_true, if_false]
    rw [hta]
    simp only [if_true]
    cases haf : s'.updateAddressFails.contains ser with
    | true => simp only [if_true]; exact Or.inr ⟨by trivial, by trivial⟩
    | false => simp only [Bool.false_eq_true, if_false]; exact Or.inr ⟨by trivial, by trivial⟩

/-- C8 counterexample: with an address supplied, when the rename
updateDevice call raises, the address update is never attempted (the
exception aborts the shared inner try-block), although the claim asserts
the deployer attempts to set the address; the deployment still verifies
and succeeds.  Concretely: the rename call is issued (and fails), no
updateDeviceAddress call appears in the trace, and the result is ok. -/

theorem C8_counterexample :
    (deploy_meraki_device c8state "S1" "N_1" "Switch" (some "1 Main St")).trace.contains
        (ApiCall.updateDeviceName "S1" "MS220_S1") = true ∧
    (deploy_meraki_device c8state "S1" "N_1" "Switch" (some "1 Main St")).trace.all
        (fun c => !(c.isAddressUpdate)) = true ∧
    (deploy_meraki_device c8state "S1" "N_1" "Switch" (some "1 Main St")).ret
        = Except.ok () :=
  ⟨by decide, by decide, rfl⟩

/-- C8 (amended): with an address supplied, after claiming, the deployer
fetches the device record and attempts the derived rename (model_serial);
the address update with map-marker relocation is attempted whenever the
fetch and the rename did not fail; failure of any of these cosmetic steps
never affects the deployment's result, which is decided solely by the
verification listing (visibility of the claimed serial). -/

theorem C8_cosmetic_updates (s : OrgState) (ser nid dt a : String) (d : Device)
    (ha : a ≠ "")
    (hfind : s.orgDevices.find? (fun x => x.serial == ser) = some d)
    (hget : s.getDeviceFails.contains ser = false) :
    (ApiCall.updateDeviceName ser (d.model ++ "_" ++ ser) ∈
      (deploy_meraki_device s ser nid dt (some a)).trace) ∧
    (s.updateNameFails.contains ser = false →
      ApiCall.updateDeviceAddress ser a true ∈
        (deploy_meraki_device s ser nid dt (some a)).trace) ∧
    ((deploy_meraki_device s ser nid dt (some a)).ret =
      if s.visibleSerials.contains ser then Except.ok () else Except.error 1) := by
  have hcos := cosmetic_with_address
    { s with netMembers := s.netMembers ++ [(nid, ser)] } ser a d ha hfind hget
  refine ⟨?_, ?_, deploy_ret s ser nid dt (some a)⟩
  · rw [deploy_trace_shape]
    rcases hcos with ⟨hc, _⟩ | ⟨hc, _⟩ <;> rw [hc] <;> simp
  · intro hn
    rw [deploy_trace_shape]
    rcases hcos with ⟨hc, hn'⟩ | ⟨hc, hn'⟩
    · rw [hn] at hn'
      exact absurd hn' (by simp)
    · rw [hc]
      simp

theorem C8_witness :
    (ApiCall.updateDeviceName "S1" "MS220_S1" ∈
      (deploy_meraki_device c8okstate "S1" "N_1" "Switch" (some "1 Main St")).trace) ∧
    (ApiCall.updateDeviceAddress "S1" "1 Main St" true ∈
      (deploy_meraki_device c8okstate "S1" "N_1" "Switch" (some "1 Main St")).trace) ∧
    (deploy_meraki_device c8okstate "S1" "N_1" "Switch" (some "1 Main St")).ret
        = Except.ok () := by
  have h := C8_cosmetic_updates c8okstate "S1" "N_1" "Switch" "1 Main St"
    { serial := "S1", model := "MS220" } (by decide) (by decide) (by decide)
  exact ⟨h.1, h.2.1 (by decide), by rw [h.2.2]; rfl⟩

end Meraki
